import Mathlib

/-!
Verification of the form-submission logic of the `error-handler` example
(`src/nextjs/error-handler/components/UserForm.tsx`): a shallow embedding of
the `onSubmit` handler, the `FormData` construction, the error taxonomy and
the pending-flag gating, with theorems checking the specification.
-/

/-- A JavaScript value as it appears in a form field: the source filters on
`value !== null && value !== undefined && value !== ''` before appending to
`FormData`, so we distinguish null, undefined, strings and numbers. -/
inductive JSValue where
  | null
  | undef
  | str (s : String)
  | num (n : Int)
  deriving DecidableEq, Repr

/-- The test `value !== null && value !== undefined && value !== ''` from
`UserForm.tsx` line 41. A number is never strictly equal to the empty
string, so numbers always pass. -/
def JSValue.keep : JSValue → Bool
  | .null => false
  | .undef => false
  | .str s => s ≠ ""
  | .num _ => true

/-- `value.toString()` as called on a value that passed the filter. -/
def JSValue.toStr : JSValue → String
  | .null => "null"
  | .undef => "undefined"
  | .str s => s
  | .num n => toString n

/-- The form record: name, email, age, bio (`UserFormData` from the schema
module, as used by the component). -/
structure UserFormData where
  name : JSValue
  email : JSValue
  age : JSValue
  bio : JSValue
  deriving DecidableEq, Repr

/-- `Object.entries(data)` for a `UserFormData` record: the four fields in
declaration order. -/
def userEntries (d : UserFormData) : List (String × JSValue) :=
  [("name", d.name), ("email", d.email), ("age", d.age), ("bio", d.bio)]

/-- The `defaultValues` passed to `useForm` in `UserForm.tsx` lines 25-30. -/
def defaultValues : UserFormData :=
  { name := .str ""
    email := .str "jdoe@acme.com"
    age := .num 25
    bio := .str "I\x27m an American" }

/-- The `FormData` construction loop of `UserForm.tsx` lines 39-44, on an
arbitrary entry list: append `(key, value.toString())` for every entry whose
value passes the filter. -/
def buildList (l : List (String × JSValue)) : List (String × String) :=
  l.foldl (fun acc p => if p.2.keep then acc ++ [(p.1, p.2.toStr)] else acc) []

/-- The `FormData` sent to the server action for a given record. -/
def buildFormData (d : UserFormData) : List (String × String) :=
  buildList (userEntries d)

/-- The error shapes the client code distinguishes. The recognized shapes are
the four from `lib/types`; `other` stands for any value matching none of the
four type guards (the client guards against that case on lines 51-61). -/
inductive ClientError where
  | zodValidation (errors : List (String × String))
  | database (message : String)
  | permission (message : String)
  | unknownKind (message : String)
  | other
  deriving DecidableEq, Repr

/-- Modelled from the spec: `ErrorTypeGuards.isZodValidationError` from
`lib/types`, which is not under `src/`. The spec describes four tagged error
shapes; each guard recognizes exactly its own tag. -/
def isZodValidationError : ClientError → Bool
  | .zodValidation _ => true
  | _ => false

/-- Modelled from the spec: `ErrorTypeGuards.isDatabaseError` from
`lib/types`, which is not under `src/`. -/
def isDatabaseError : ClientError → Bool
  | .database _ => true
  | _ => false

/-- Modelled from the spec: `ErrorTypeGuards.isPermissionError` from
`lib/types`, which is not under `src/`. -/
def isPermissionError : ClientError → Bool
  | .permission _ => true
  | _ => false

/-- Modelled from the spec: `ErrorTypeGuards.isUnknownError` from
`lib/types`, which is not under `src/`. -/
def isUnknownError : ClientError → Bool
  | .unknownKind _ => true
  | _ => false

/-- `result.error.errors`: the per-field error map of a validation error
(empty on the other shapes, which never reach that access in the code). -/
def ClientError.errorsOf : ClientError → List (String × String)
  | .zodValidation errs => errs
  | _ => []

/-- `result.error.message`: the message of a database, permission or unknown
error (empty on the other shapes, which never reach that access). -/
def ClientError.messageOf : ClientError → String
  | .database m => m
  | .permission m => m
  | .unknownKind m => m
  | _ => ""

/-- The value returned by the server action: `{ success: true }` or
`{ success: false, error }`. -/
inductive ServerResult where
  | success
  | failure (error : ClientError)
  deriving DecidableEq, Repr

/-- What `await submitUserData(formData)` does from the client point of view:
either return a result or throw (the catch block stringifies the thrown
value, so we carry its `toString()`). -/
inductive ActionOutcome where
  | returns (r : ServerResult)
  | throws (errStr : String)
  deriving DecidableEq, Repr

/-- A field error as set by `form.setError(key, { type: 'server',
message: value })`. -/
structure FieldError where
  type : String
  message : String
  deriving DecidableEq, Repr

/-- `form.setError`: replace the error recorded under `key` or, if the key
has no error yet, append it. -/
def setError : List (String × FieldError) → String → FieldError →
    List (String × FieldError)
  | [], k, fe => [(k, fe)]
  | (k0, fe0) :: rest, k, fe =>
    if k0 = k then (k, fe) :: rest else (k0, fe0) :: setError rest k fe

/-- Look up the error recorded against a field key. -/
def lookupError : List (String × FieldError) → String → Option FieldError
  | [], _ => none
  | (k0, fe) :: rest, k => if k0 = k then some fe else lookupError rest k

/-- The loop of `UserForm.tsx` lines 52-54: set a field error of type
`server` with the mapped message, for each entry of the per-field error
map. -/
def setServerErrors (fe : List (String × FieldError))
    (errs : List (String × String)) : List (String × FieldError) :=
  errs.foldl (fun acc p => setError acc p.1 ⟨"server", p.2⟩) fe

/-- The client state the handler reads and writes: the current field values,
the react-hook-form field errors, the `serverError` banner and the
`submissionTime` success timestamp. -/
structure FormState where
  values : UserFormData
  fieldErrors : List (String × FieldError)
  serverError : Option String
  submissionTime : Option String
  deriving DecidableEq, Repr

/-- The result branch of the handler, `UserForm.tsx` lines 47-62: on success
record the timestamp and `form.reset()` (back to `defaultValues`, clearing
field errors); on failure dispatch on the type guards exactly as the
if/else-if chain does. -/
def applyResult (st : FormState) (now : String) (r : ServerResult) :
    FormState :=
  match r with
  | .success =>
    { st with submissionTime := some now, values := defaultValues,
              fieldErrors := [] }
  | .failure e =>
    if isZodValidationError e then
      { st with fieldErrors := setServerErrors st.fieldErrors e.errorsOf }
    else if isDatabaseError e || isPermissionError e || isUnknownError e then
      { st with serverError := some e.messageOf }
    else
      st

/-- The fixed prefix of the catch-block banner, `UserForm.tsx` line 64. -/
def genericPrefix : String :=
  "An unexpected error occurred. Please try again. "

/-- The `onSubmit` callback of `UserForm.tsx` lines 33-67: clear the banner
and the timestamp, then handle the awaited outcome; a throw anywhere in the
try block lands in the catch, which sets the generic banner plus the
stringified error. -/
def onSubmit (st : FormState) (outcome : ActionOutcome) (now : String) :
    FormState :=
  let st1 : FormState :=
    { st with serverError := none, submissionTime := none }
  match outcome with
  | .returns r => applyResult st1 now r
  | .throws e => { st1 with serverError := some (genericPrefix ++ e) }

/-- `onSubmit` with the action call made explicit: the handler builds the
`FormData` once, awaits `submitUserData` on it once, and handles the
outcome. The second component is the list of calls made to the action. -/
def onSubmitTraced (action : List (String × String) → ActionOutcome)
    (st : FormState) (d : UserFormData) (now : String) :
    FormState × List (List (String × String)) :=
  let fd := buildFormData d
  (onSubmit st (action fd) now, [fd])

/-- Modelled from the spec: the error type returned by the server action
`submitUserData` in `lib/actions`, which is not under `src/`. The spec says
the action returns a success marker or one of exactly four tagged error
shapes. -/
inductive ActionError where
  | zodValidation (errors : List (String × String))
  | database (message : String)
  | permission (message : String)
  | unknownKind (message : String)
  deriving DecidableEq, Repr

/-- Modelled from the spec: the result type of the server action. -/
inductive ActionResult where
  | success
  | failure (error : ActionError)
  deriving DecidableEq, Repr

/-- The injection of the four server-side error shapes into the client error
taxonomy. -/
def ActionError.toClient : ActionError → ClientError
  | .zodValidation errs => .zodValidation errs
  | .database m => .database m
  | .permission m => .permission m
  | .unknownKind m => .unknownKind m

/-- How many of the four type guards accept a given error value. -/
def guardCount (e : ClientError) : Nat :=
  (isZodValidationError e).toNat + (isDatabaseError e).toNat +
    (isPermissionError e).toNat + (isUnknownError e).toNat

/-- The submission UI: the `isPending` flag of `useTransition`
(`UserForm.tsx` line 19) and the number of in-flight submissions. -/
structure SubmissionUI where
  isPending : Bool
  inFlight : Nat
  deriving DecidableEq, Repr

/-- `disabled={isPending}` on the submit button, `UserForm.tsx` line 137. -/
def buttonDisabled (s : SubmissionUI) : Bool :=
  s.isPending

/-- The initial UI state: no pending transition, nothing in flight. -/
def initUI : SubmissionUI :=
  { isPending := false, inFlight := 0 }

/-- Modelled from the spec: the transitions the UI allows. A submission can
start only through the submit button, so only while the button is enabled;
starting enters the transition (the pending flag goes up, one more
submission in flight); a submission finishing leaves the transition, and the
pending flag stays up exactly while something is still in flight. -/
inductive UIStep : SubmissionUI → SubmissionUI → Prop where
  | start (s : SubmissionUI) (h : buttonDisabled s = false) :
      UIStep s { isPending := true, inFlight := s.inFlight + 1 }
  | finish (s : SubmissionUI) (h : 0 < s.inFlight) :
      UIStep s { isPending := decide (s.inFlight - 1 ≠ 0),
                 inFlight := s.inFlight - 1 }

/-- A UI state reachable from the initial state. -/
def ReachableUI (s : SubmissionUI) : Prop :=
  Relation.ReflTransGen UIStep initUI s

/-- Modelled from the spec: `clientValidation ? zodResolver(userSchema) :
undefined` from `UserForm.tsx` lines 23-31, with the schema predicate
abstract since `lib/schema` is not under `src/`. -/
def formResolver (clientValidation : Bool) (schema : UserFormData → Bool) :
    Option (UserFormData → Bool) :=
  if clientValidation then some schema else none

/-- `form.handleSubmit(onSubmit)`: with a resolver installed the handler is
invoked only when the resolver accepts the data; with no resolver the data
goes through unvalidated. Returns whether `onSubmit` is invoked. -/
def submitProceeds (res : Option (UserFormData → Bool))
    (d : UserFormData) : Bool :=
  match res with
  | some validate => validate d
  | none => true

/- Helper lemmas about the field-error map. -/

theorem setServerErrors_nil (fe : List (String × FieldError)) :
    setServerErrors fe [] = fe := rfl

theorem setServerErrors_cons (fe : List (String × FieldError))
    (p : String × String) (rest : List (String × String)) :
    setServerErrors fe (p :: rest)
      = setServerErrors (setError fe p.1 ⟨"server", p.2⟩) rest := rfl

theorem lookupError_setError_self (l : List (String × FieldError))
    (k : String) (fe : FieldError) :
    lookupError (setError l k fe) k = some fe := by
  induction l with
  | nil => simp [setError, lookupError]
  | cons p rest ih =>
    rcases p with ⟨pk, pv⟩
    by_cases h : pk = k
    · simp [setError, h, lookupError]
    · simp [setError, h, lookupError, ih]

theorem lookupError_setError_ne (l : List (String × FieldError))
    (k k0 : String) (fe : FieldError) (h : k ≠ k0) :
    lookupError (setError l k0 fe) k = lookupError l k := by
  induction l with
  | nil => simp [setError, lookupError, Ne.symm h]
  | cons p rest ih =>
    rcases p with ⟨pk, pv⟩
    by_cases hp : pk = k0
    · subst hp
      simp [setError, lookupError, Ne.symm h]
    · by_cases hk : pk = k
      · simp [setError, lookupError, hp, hk, h]
      · simp [setError, lookupError, hp, hk, ih]

theorem lookupError_setServerErrors_not_mem
    (errs : List (String × String)) (fe : List (String × FieldError))
    (k : String) (h : k ∉ errs.map Prod.fst) :
    lookupError (setServerErrors fe errs) k = lookupError fe k := by
  induction errs generalizing fe with
  | nil => rfl
  | cons p rest ih =>
    simp only [List.map_cons, List.mem_cons, not_or] at h
    rw [setServerErrors_cons, ih _ h.2,
      lookupError_setError_ne _ _ _ _ h.1]

theorem lookupError_setServerErrors (errs : List (String × String))
    (fe : List (String × FieldError))
    (hnd : (errs.map Prod.fst).Nodup) :
    ∀ p ∈ errs,
      lookupError (setServerErrors fe errs) p.1 = some ⟨"server", p.2⟩ := by
  induction errs generalizing fe with
  | nil => intro p hp; cases hp
  | cons q rest ih =>
    simp only [List.map_cons, List.nodup_cons] at hnd
    intro p hp
    rcases List.mem_cons.mp hp with rfl | hmem
    · rw [setServerErrors_cons,
        lookupError_setServerErrors_not_mem _ _ _ hnd.1,
        lookupError_setError_self]
    · rw [setServerErrors_cons]
      exact ih (setError fe q.1 ⟨"server", q.2⟩) hnd.2 p hmem

/- Helper lemmas about the FormData construction. -/

theorem buildList_foldl (l : List (String × JSValue))
    (acc : List (String × String)) :
    l.foldl (fun a p => if p.2.keep then a ++ [(p.1, p.2.toStr)] else a) acc
      = acc ++ l.filterMap
          (fun p => if p.2.keep then some (p.1, p.2.toStr) else none) := by
  induction l generalizing acc with
  | nil => simp
  | cons p rest ih =>
    by_cases h : p.2.keep
    · simp [h, ih]
    · simp [h, ih]

theorem buildList_eq_filterMap (l : List (String × JSValue)) :
    buildList l = l.filterMap
      (fun p => if p.2.keep then some (p.1, p.2.toStr) else none) := by
  simpa using buildList_foldl l []

theorem mem_buildList (l : List (String × JSValue)) (k s : String) :
    (k, s) ∈ buildList l ↔
      ∃ v, (k, v) ∈ l ∧ v.keep = true ∧ v.toStr = s := by
  rw [buildList_eq_filterMap, List.mem_filterMap]
  constructor
  · rintro ⟨⟨k0, v⟩, hmem, hf⟩
    by_cases h : v.keep
    · simp only [h, if_true, Option.some.injEq, Prod.mk.injEq] at hf
      exact ⟨v, by simpa [hf.1] using hmem, h, hf.2⟩
    · simp [h] at hf
  · rintro ⟨v, hmem, hkeep, hstr⟩
    exact ⟨(k, v), hmem, by simp [hkeep, hstr]⟩

theorem keep_eq_false_iff (v : JSValue) :
    v.keep = false ↔ (v = .null ∨ v = .undef ∨ v = .str "") := by
  cases v <;> simp [JSValue.keep]

theorem userEntries_key_inj (d : UserFormData) (k : String)
    (v v' : JSValue) (h : (k, v) ∈ userEntries d)
    (h' : (k, v') ∈ userEntries d) : v = v' := by
  simp only [userEntries, List.mem_cons, List.not_mem_nil, or_false,
    Prod.mk.injEq] at h h'
  rcases h with ⟨hk, hv⟩ | ⟨hk, hv⟩ | ⟨hk, hv⟩ | ⟨hk, hv⟩ <;>
    rcases h' with ⟨hk', hv'⟩ | ⟨hk', hv'⟩ | ⟨hk', hv'⟩ | ⟨hk', hv'⟩ <;>
    subst_vars <;> simp_all

/-- A sample initial client state used in the concrete checks below. -/
def st0 : FormState :=
  { values := defaultValues, fieldErrors := [], serverError := none,
    submissionTime := none }

theorem uiInvariant : ∀ s : SubmissionUI, ReachableUI s →
    s.isPending = decide (s.inFlight ≠ 0) ∧ s.inFlight ≤ 1 := by
  intro s h
  induction h with
  | refl => constructor <;> simp [initUI]
  | tail hr step ih =>
    rename_i b c
    obtain ⟨ih1, ih2⟩ := ih
    cases step with
    | start hbtn =>
      have hp : b.isPending = false := hbtn
      have h0 : b.inFlight = 0 := by
        rw [hp] at ih1
        by_contra hne
        rw [decide_eq_true hne] at ih1
        exact Bool.false_ne_true ih1
      constructor
      · simp
      · show b.inFlight + 1 ≤ 1
        omega
    | finish hfl =>
      refine ⟨rfl, ?_⟩
      show b.inFlight - 1 ≤ 1
      omega

/-- C1: a failed submission carrying a Zod validation error sets, for each
field key in the per-field error map, a field error of type `server` with
that key's message, and leaves the whole-form banner unset. -/
theorem claim1_validation_errors_mapped_per_field (st : FormState)
    (now : String) (errs : List (String × String))
    (hnd : (errs.map Prod.fst).Nodup) :
    (∀ p ∈ errs,
      lookupError
        (onSubmit st (.returns (.failure (.zodValidation errs))) now).fieldErrors
        p.1 = some ⟨"server", p.2⟩) ∧
    (onSubmit st (.returns (.failure (.zodValidation errs))) now).serverError
      = none := by
  constructor
  · intro p hp
    have hfe :
        (onSubmit st (.returns (.failure (.zodValidation errs))) now).fieldErrors
          = setServerErrors st.fieldErrors errs := rfl
    rw [hfe]
    exact lookupError_setServerErrors errs st.fieldErrors hnd p hp
  · rfl

/-- C1 witness: two concrete validation errors land as field errors on the
initial state, and the banner stays unset. -/
theorem claim1_witness :
    ((([("email", "Invalid email"), ("age", "Too young")] :
        List (String × String)).map Prod.fst).Nodup) ∧
    lookupError
      (onSubmit st0
        (.returns (.failure (.zodValidation
          [("email", "Invalid email"), ("age", "Too young")])))
        "2024-01-01").fieldErrors "email" = some ⟨"server", "Invalid email"⟩ ∧
    (onSubmit st0
      (.returns (.failure (.zodValidation
        [("email", "Invalid email"), ("age", "Too young")])))
      "2024-01-01").serverError = none :=
  ⟨by decide,
   (claim1_validation_errors_mapped_per_field st0 "2024-01-01"
      [("email", "Invalid email"), ("age", "Too young")] (by decide)).1
      ("email", "Invalid email") (by decide),
   (claim1_validation_errors_mapped_per_field st0 "2024-01-01"
      [("email", "Invalid email"), ("age", "Too young")] (by decide)).2⟩

/-- C2: a failed submission carrying a database, permission or unknown error
sets the whole-form banner to that error's message and changes nothing else
(in particular, no per-field errors are set and the timestamp is cleared). -/
theorem claim2_banner_errors_shown_whole_form (st : FormState)
    (m now : String) :
    onSubmit st (.returns (.failure (.database m))) now
      = { st with serverError := some m, submissionTime := none } ∧
    onSubmit st (.returns (.failure (.permission m))) now
      = { st with serverError := some m, submissionTime := none } ∧
    onSubmit st (.returns (.failure (.unknownKind m))) now
      = { st with serverError := some m, submissionTime := none } :=
  ⟨rfl, rfl, rfl⟩

/-- C3 counterexample: on a thrown error the banner is not the fixed text
alone; the code appends the stringified error to it. -/
theorem claim3_counterexample :
    (onSubmit st0 (.throws "TypeError: Failed to fetch")
        "2024-01-01").serverError
      ≠ some "An unexpected error occurred. Please try again." := by
  decide

/-- C3 amended: on a submission whose try block throws, the form shows a
banner consisting of the fixed text `An unexpected error occurred. Please
try again. ` followed by the stringified thrown error, and sets no
per-field errors and no success timestamp. -/
theorem claim3_generic_banner_on_throw (st : FormState) (e now : String) :
    (onSubmit st (.throws e) now).serverError = some (genericPrefix ++ e) ∧
    (onSubmit st (.throws e) now).fieldErrors = st.fieldErrors ∧
    (onSubmit st (.throws e) now).submissionTime = none :=
  ⟨rfl, rfl, rfl⟩

/-- C4: a successful submission records the success timestamp, resets the
form to its default values, and leaves the banner unset. -/
theorem claim4_success_records_time_and_resets (st : FormState)
    (now : String) :
    onSubmit st (.returns .success) now
      = { values := defaultValues, fieldErrors := [], serverError := none,
          submissionTime := some now } :=
  rfl

/-- C5: with the client-validation toggle on, the submit handler runs only
when the schema accepts the data (invalid input is blocked before the server
action); with the toggle off, no resolver is installed and every submission
goes through unvalidated. -/
theorem claim5_toggle_controls_client_validation
    (schema : UserFormData → Bool) (d : UserFormData) :
    submitProceeds (formResolver true schema) d = schema d ∧
    submitProceeds (formResolver false schema) d = true ∧
    formResolver false schema = none :=
  ⟨rfl, rfl, rfl⟩

/-- C6: in every reachable UI state at most one submission is in flight, and
while one is in flight the pending flag is set and the submit button is
disabled. -/
theorem claim6_single_submission_in_flight (s : SubmissionUI)
    (h : ReachableUI s) :
    s.inFlight ≤ 1 ∧
      (0 < s.inFlight → s.isPending = true ∧ buttonDisabled s = true) := by
  obtain ⟨h1, h2⟩ := uiInvariant s h
  refine ⟨h2, fun hpos => ?_⟩
  have hp : s.isPending = true := by
    rw [h1]
    simp only [decide_eq_true_eq]
    omega
  exact ⟨hp, hp⟩

/-- C6 witness: the state reached by starting one submission from the
initial state has one submission in flight, the pending flag set and the
button disabled. -/
theorem claim6_witness :
    ({ isPending := true, inFlight := 1 } : SubmissionUI).inFlight ≤ 1 ∧
      (0 < ({ isPending := true, inFlight := 1 } : SubmissionUI).inFlight →
        ({ isPending := true, inFlight := 1 } : SubmissionUI).isPending = true
          ∧ buttonDisabled { isPending := true, inFlight := 1 } = true) :=
  claim6_single_submission_in_flight _
    (Relation.ReflTransGen.single (UIStep.start initUI rfl))

/-- C7: each submission makes exactly one call to the server action, with
the form-encoded fields, and every value the action can return is the
success marker or a failure carrying exactly one of the four tagged error
shapes. -/
theorem claim7_one_action_call_four_shapes
    (action : List (String × String) → ActionOutcome) (st : FormState)
    (d : UserFormData) (now : String) :
    (onSubmitTraced action st d now).2 = [buildFormData d] ∧
    (onSubmitTraced action st d now).2.length = 1 ∧
    (∀ r : ActionResult, r = .success ∨
      ∃ e : ActionError, r = .failure e ∧ guardCount e.toClient = 1) := by
  refine ⟨rfl, rfl, ?_⟩
  intro r
  cases r with
  | success => exact Or.inl rfl
  | failure e => exact Or.inr ⟨e, rfl, by cases e <;> rfl⟩

/-- C8: a field whose value is null, undefined or the empty string is
omitted from the FormData entirely; any other field is appended as the
string conversion of its value. -/
theorem claim8_empty_fields_omitted (d : UserFormData) (k : String)
    (v : JSValue) (h : (k, v) ∈ userEntries d) :
    ((v = .null ∨ v = .undef ∨ v = .str "") →
      ∀ s, (k, s) ∉ buildFormData d) ∧
    (¬(v = .null ∨ v = .undef ∨ v = .str "") →
      (k, v.toStr) ∈ buildFormData d) := by
  constructor
  · intro hom s hmem
    rcases (mem_buildList (userEntries d) k s).mp hmem with
      ⟨v2, hv2mem, hkeep, _⟩
    have hvv : v = v2 := userEntries_key_inj d k v v2 h hv2mem
    subst hvv
    rw [(keep_eq_false_iff v).mpr hom] at hkeep
    exact Bool.false_ne_true hkeep
  · intro hnot
    have hkeep : v.keep = true := by
      cases hkt : v.keep
      · exact absurd ((keep_eq_false_iff v).mp hkt) hnot
      · rfl
    exact (mem_buildList (userEntries d) k v.toStr).mpr ⟨v, h, hkeep, rfl⟩

/-- C8 witness: on the default values the name field (empty string) sends no
FormData entry, while the bio field is appended as its string value. -/
theorem claim8_witness :
    (("name", JSValue.str "") ∈ userEntries defaultValues) ∧
    ("name", "") ∉ buildFormData defaultValues :=
  ⟨by decide,
   (claim8_empty_fields_omitted defaultValues "name" (.str "")
      (by decide)).1 (Or.inr (Or.inr rfl)) ""⟩

/-- C9: every submission starts by clearing the banner and the success
timestamp, so after it completes at most one of the two is set, and the
outcome is independent of the messages left by a previous submission. -/
theorem claim9_messages_cleared_each_submission (st : FormState)
    (o : ActionOutcome) (now : String) :
    ((onSubmit st o now).serverError = none ∨
      (onSubmit st o now).submissionTime = none) ∧
    onSubmit st o now
      = onSubmit { st with serverError := none, submissionTime := none }
          o now := by
  constructor
  · cases o with
    | throws e => exact Or.inr rfl
    | returns r =>
      cases r with
      | success => exact Or.inl rfl
      | failure e =>
        cases e with
        | zodValidation errs => exact Or.inl rfl
        | database m => exact Or.inr rfl
        | permission m => exact Or.inr rfl
        | unknownKind m => exact Or.inr rfl
        | other => exact Or.inl rfl
  · cases o with
    | throws e => rfl
    | returns r =>
      cases r with
      | success => rfl
      | failure e => cases e <;> rfl

/-- C10: a failed submission whose error matches none of the four guards
leaves the field errors and the values untouched and records neither a
banner nor a timestamp. -/
theorem claim10_unrecognized_error_silently_dropped (st : FormState)
    (now : String) :
    (onSubmit st (.returns (.failure .other)) now).fieldErrors
      = st.fieldErrors ∧
    (onSubmit st (.returns (.failure .other)) now).values = st.values ∧
    (onSubmit st (.returns (.failure .other)) now).serverError = none ∧
    (onSubmit st (.returns (.failure .other)) now).submissionTime = none :=
  ⟨rfl, rfl, rfl, rfl⟩
